import Mathlib

set_option autoImplicit false

namespace Firecracker

/-! Shallow embedding of the Firecracker microVM orchestrator
    (vm_manager.py, network_manager.py, firecracker_orchestrator.py,
    validation.py, provider_client.py, utils/provider_resolver.py).
    Effectful steps (subprocess calls, file writes, HTTP requests) are
    modelled by explicit outcome flags in a `World` record; the file
    system, the manifest directory, the VM registry and the network
    provisioner's active-interfaces map are explicit state. -/

/-- Fragment of JSON needed by the task-descriptor schema and the
    provider-response payloads. -/
inductive JVal where
  | jstr (s : String)
  | jint (n : Int)
  | jobj (fields : List (String × JVal))
  | jother

/-- Python truthiness for the JSON fragment: empty strings, zero and empty
    objects are falsy. `jother` stands for values the claims never inspect;
    it is treated as truthy. -/
def jTruthy : JVal → Bool
  | JVal.jstr s => s ≠ ""
  | JVal.jint n => n ≠ 0
  | JVal.jobj l => ¬ l.isEmpty
  | JVal.jother => true

/-- Truthiness of an optional JSON value (`None` is falsy). -/
def jTruthyOpt : Option JVal → Bool
  | some v => jTruthy v
  | none => false

/-- Task descriptor: the fields inspected by MCP_TASK_SCHEMA in
    validation.py, each optional because JSON objects may omit keys.
    `provider_response` is the key create_vm adds to the dict. -/
structure TaskData where
  task_id : Option JVal := none
  prompt : Option JVal := none
  provider : Option JVal := none
  model : Option JVal := none
  timeout_seconds : Option JVal := none
  env_overrides : Option JVal := none
  provider_response : Option JVal := none

/-- Python truthiness of the task-data dict: non-empty. -/
def tdTruthy (t : TaskData) : Bool :=
  t.task_id.isSome || t.prompt.isSome || t.provider.isSome || t.model.isSome ||
  t.timeout_seconds.isSome || t.env_overrides.isSome || t.provider_response.isSome

/-- Schema check: a value, when present, must be a JSON string. -/
def tyStr : Option JVal → Bool
  | none => true
  | some (JVal.jstr _) => true
  | some _ => false

/-- Schema check: a value, when present, must be a JSON integer. -/
def tyInt : Option JVal → Bool
  | none => true
  | some (JVal.jint _) => true
  | some _ => false

/-- Schema check for `provider`: when present it must be a string drawn from
    the closed enum of validation.py. -/
def providerEnumOk : Option JVal → Bool
  | none => true
  | some (JVal.jstr s) => s == "openai" || s == "ollama"
  | some _ => false

/-- Schema check for `env_overrides`: when present it must be an object all
    of whose values are strings. -/
def envOverridesOk : Option JVal → Bool
  | none => true
  | some (JVal.jobj l) =>
      l.all (fun kv => match kv.2 with | JVal.jstr _ => true | _ => false)
  | some _ => false

/-- validation.validate_mcp_request against MCP_TASK_SCHEMA:
    required fields task_id, prompt, provider; typed properties for
    task_id, prompt, provider (enum), model, timeout_seconds,
    env_overrides. Returns true exactly when no ValidationError is raised. -/
def validate_mcp_request (t : TaskData) : Bool :=
  t.task_id.isSome && t.prompt.isSome && t.provider.isSome &&
  tyStr t.task_id && tyStr t.prompt && providerEnumOk t.provider &&
  tyStr t.model && tyInt t.timeout_seconds && envOverridesOk t.env_overrides

/-- Declarative characterisation of the descriptors the schema accepts,
    used to state the amended form of the validation claim. -/
def AcceptedDescriptor (t : TaskData) : Prop :=
  (∃ a, t.task_id = some (JVal.jstr a)) ∧
  (∃ p, t.prompt = some (JVal.jstr p)) ∧
  (∃ pr, t.provider = some (JVal.jstr pr) ∧ (pr = "openai" ∨ pr = "ollama")) ∧
  (t.model = none ∨ ∃ m, t.model = some (JVal.jstr m)) ∧
  (t.timeout_seconds = none ∨ ∃ n, t.timeout_seconds = some (JVal.jint n)) ∧
  (t.env_overrides = none ∨
    ∃ l, t.env_overrides = some (JVal.jobj l) ∧
      ∀ kv ∈ l, ∃ s, kv.2 = JVal.jstr s)

/-! Provider URL resolution (utils/provider_resolver.py). -/

/-- Built-in default endpoints (`DEFAULTS` dict). -/
def providerDefaults (p : String) : Option String :=
  if p = "ollama" then some "http://localhost:11434/api/generate"
  else if p = "openai" then some "https://api.openai.com/v1/completions"
  else none

/-- Python truthiness filter on an optional string: `None` and the empty
    string are falsy. -/
def truthyStr : Option String → Option String
  | none => none
  | some s => if s = "" then none else some s

/-- utils.provider_resolver.resolve_provider_url. `env` models
    `os.getenv`; `provUrl` models the `config.providers.<provider>.url`
    attribute chain, with `none` when any attribute is missing. The
    source tests each candidate with `if val:` (truthiness). -/
def resolve_provider_url (env provUrl : String → Option String) (provider : String) :
    Option String :=
  match truthyStr (env (provider.toUpper ++ "_URL")) with
  | some v => some v
  | none =>
    match truthyStr (provUrl provider) with
    | some u => some u
    | none => providerDefaults provider

/-- Resolution as the claim words it: the environment value must be set and
    non-empty, but the configuration value is used whenever it is present
    (no truthiness filter). Stated from the spec sentence, to be compared
    with `resolve_provider_url`. -/
def resolveSpecWord (env provUrl : String → Option String) (provider : String) :
    Option String :=
  match truthyStr (env (provider.toUpper ++ "_URL")) with
  | some v => some v
  | none =>
    match provUrl provider with
    | some u => some u
    | none => providerDefaults provider

/-! Retrying HTTP POST (provider_client.post_with_retries). -/

/-- Result of a run of post_with_retries: the returned value or the raised
    exception (`Except.error none` models the degenerate `raise None` when
    the loop body never ran), the number of HTTP attempts issued and the
    sleeps performed, in order. -/
structure RetryOut (R : Type) where
  result : Except (Option String) R
  attempts : Nat
  sleeps : List ℚ

/-- Loop body of post_with_retries: `attempt` is the 1-based index of the
    next attempt, `fuel` the number of loop iterations left, `last` the
    last exception seen. On each failing attempt the source records the
    exception and sleeps `backoff * attempt` seconds; when the loop ends it
    re-raises the recorded exception. -/
def retryGo {R : Type} (f : Nat → Except String R) (backoff : ℚ) :
    Nat → Nat → Option String → RetryOut R
  | _, 0, last => ⟨Except.error last, 0, []⟩
  | attempt, fuel + 1, _ =>
    match f attempt with
    | Except.ok r => ⟨Except.ok r, 1, []⟩
    | Except.error e =>
      let rest := retryGo f backoff (attempt + 1) fuel (some e)
      ⟨rest.result, rest.attempts + 1, backoff * attempt :: rest.sleeps⟩

/-- provider_client.post_with_retries: `f k` is the outcome of the k-th
    HTTP attempt (1-based), `retries` the bound, `backoff` the base delay. -/
def post_with_retries {R : Type} (f : Nat → Except String R) (retries : Nat)
    (backoff : ℚ) : RetryOut R :=
  retryGo f backoff 1 retries none

/-! Association lists and file-system state helpers. -/

/-- Lookup in an association list keyed by strings. -/
def lookupA {α : Type} (k : String) : List (String × α) → Option α
  | [] => none
  | kv :: rest => if kv.1 = k then some kv.2 else lookupA k rest

/-- Update-or-insert in an association list. -/
def updA {α : Type} (k : String) (v : α) (l : List (String × α)) :
    List (String × α) :=
  (k, v) :: l.filter (fun kv => kv.1 ≠ k)

/-- Delete a key from an association list. -/
def eraseA {α : Type} (k : String) (l : List (String × α)) :
    List (String × α) :=
  l.filter (fun kv => kv.1 ≠ k)

/-- Keys of an association list. -/
def keysA {α : Type} (l : List (String × α)) : List String := l.map (fun kv => kv.1)

/-- Create a file (set of present paths). -/
def fsAdd (p : String) (fs : List String) : List String :=
  if p ∈ fs then fs else p :: fs

/-- Unlink a file. -/
def fsDel (p : String) (fs : List String) : List String :=
  fs.filter (fun q => q ≠ p)

/-! Exceptions distinguished by the claims. -/

/-- Python exceptions the modelled code raises or catches. -/
inductive PyErr where
  | validationError
  | calledProcessError
  | requestError
  | netmaskValueError
  | valueError
  | runtimeError
  deriving DecidableEq, Repr

/-! Network CIDR inputs (ipaddress.IPv4Network). -/

/-- A CIDR argument as the `ipaddress` module classifies it: a well-formed
    network (address value and prefix length, parsed with strict=False),
    a string whose address part is malformed (IPv4Network raises
    AddressValueError), or one whose prefix is malformed (IPv4Network
    raises NetmaskValueError, which network_manager.py never catches). -/
inductive CidrInput where
  | wellFormed (addr : Nat) (plen : Nat)
  | addrMalformed
  | maskMalformed
  deriving DecidableEq, Repr

/-- Dotted-quad value as a 32-bit number. -/
def ipv4 (a b c d : Nat) : Nat := ((a * 256 + b) * 256 + c) * 256 + d

/-- network_address of IPv4Network(addr/plen, strict=False): host bits
    cleared. -/
def networkAddress (addr plen : Nat) : Nat :=
  addr - addr % 2 ^ (32 - plen)

/-- broadcast_address of the network. -/
def broadcastAddress (addr plen : Nat) : Nat :=
  networkAddress addr plen + (2 ^ (32 - plen) - 1)

/-- The `_private_networks` table behind IPv4Network.is_private in
    Python's ipaddress module. -/
def privateRanges : List (Nat × Nat) :=
  [(ipv4 0 0 0 0, 8), (ipv4 10 0 0 0, 8), (ipv4 127 0 0 0, 8),
   (ipv4 169 254 0 0, 16), (ipv4 172 16 0 0, 12), (ipv4 192 0 0 0, 29),
   (ipv4 192 0 0 170, 31), (ipv4 192 0 2 0, 24), (ipv4 192 168 0 0, 16),
   (ipv4 198 18 0 0, 15), (ipv4 198 51 100 0, 24), (ipv4 203 0 113 0, 24),
   (ipv4 240 0 0 0, 4), (ipv4 255 255 255 255, 32)]

/-- Membership of an address in one of the table's ranges. -/
def addrInRange (x : Nat) (r : Nat × Nat) : Bool :=
  x / 2 ^ (32 - r.2) == r.1 / 2 ^ (32 - r.2)

/-- IPv4Address.is_private. -/
def isPrivateAddr (x : Nat) : Bool := privateRanges.any (addrInRange x)

/-- IPv4Network.is_private: both the network and the broadcast address lie
    in a private range. -/
def isPrivateNet (addr plen : Nat) : Bool :=
  isPrivateAddr (networkAddress addr plen) &&
  isPrivateAddr (broadcastAddress addr plen)

/-! Configuration, world of effect outcomes, and system state. -/

/-- The configuration fields the modelled code reads
    (config.paths.*, config.vm.*, config.providers.*). -/
structure AppConfig where
  shared : String
  results : String
  ubuntuImages : String
  memoryMb : Nat
  vcpus : Nat
  shutdownTimeout : Nat
  useJailer : Bool := false
  useRealInit : Bool := false
  networkCidr : CidrInput
  providersUrl : String → Option String := fun _ => none

/-- Outcomes of the effectful steps, fixed per run: each flag says whether
    the corresponding subprocess call, file write or HTTP request succeeds.
    `env` models os.getenv, `now` the manifest timestamp. -/
structure World where
  env : String → Option String := fun _ => none
  now : String := ""
  providerResult : Except String JVal := Except.error "unreachable"
  diskOk : Bool := true
  artifactsOk : Bool := true
  manifestOk : Bool := true
  launchOk : Bool := true
  putBootOk : Bool := true
  putMachineOk : Bool := true
  termRaisesLookup : Bool := false
  unlinkSocketOk : Bool := true
  unlinkSharedOk : Bool := true
  unlinkConfigOk : Bool := true
  netCmdsOk : Bool := true
  orchNetOk : Bool := true
  orchSpawnOk : Bool := true
  orchEarlyExit : Bool := false

/-- Manifest document written by VMManager._write_manifest. -/
structure Manifest where
  vm_id : String
  image : String
  memory_mb : Nat
  vcpus : Nat
  network_mode : String
  created_at : String
  state : String
  provider_response : Option JVal := none

/-- The slice of the generated Firecracker configuration the claims read.
    `provider_response` mirrors the dict key _write_manifest probes with
    `config.get`; _generate_vm_config never sets it. -/
structure VMConfig where
  kernel_image_path : String
  boot_args : String
  rootfs_path : String
  shared_drive_path : String
  tap_name : String
  vcpu_count : Nat
  mem_size_mib : Nat
  init_img : Option String := none
  provider_response : Option JVal := none

/-- vm_manager.VMInstance. `processRunning = none` means no process handle;
    `some true` a live process; `some false` an exited one.
    `provider_response = none` models the attribute being absent. -/
structure VMInstance where
  vm_id : String
  config : Option VMConfig := none
  processRunning : Option Bool := none
  socket_path : Option String := none
  shared_disk_path : Option String := none
  tap_name : Option String := none
  provider_response : Option JVal := none

/-- Per-VM record the Network Provisioner keeps in active_interfaces. -/
structure NetInfo where
  tap_name : String
  cidr : CidrInput
  gateway_ip : Nat
  vm_ip : Nat
  deriving DecidableEq, Repr

/-- Shared mutable state: the manifest files under the results root, the
    VMManager registry, the NetworkManager active-interfaces map, the host
    file system, and the TAP devices the orchestrator's inline networking
    path created. -/
structure SysState where
  manifests : List (String × Manifest) := []
  active_vms : List (String × VMInstance) := []
  netActive : List (String × NetInfo) := []
  fs : List String := []
  hostTaps : List String := []

/-! Fixed per-VM paths. -/

/-- Shared-channel image path (/tmp/shared-<vm_id>.ext4). -/
def sharedDiskPath (vm_id : String) : String := "/tmp/shared-" ++ vm_id ++ ".ext4"

/-- Control-socket path. -/
def socketPath (vm_id : String) : String := "/tmp/firecracker-" ++ vm_id ++ ".socket"

/-- Boot-config file path. -/
def vmConfigPath (vm_id : String) : String := "/tmp/vm-config-" ++ vm_id ++ ".json"

/-- Guest artifact tarball path under the results root. -/
def guestTarPath (cfg : AppConfig) (vm_id : String) : String :=
  cfg.results ++ "/" ++ vm_id ++ "/guest.tar.gz"

/-- Init-overlay image path under the results root. -/
def initImgPath (cfg : AppConfig) (vm_id : String) : String :=
  cfg.results ++ "/" ++ vm_id ++ "/init-overlay.img"

/-- Base name of a path (Path(...).name). -/
def baseName (p : String) : String := (p.splitOn "/").getLastD p

/-! VM lifecycle manager (vm_manager.VMManager). -/

/-- The provider payload _write_manifest embeds: it probes
    `config.get('provider_response')`, falls back to the instance attribute
    when that is falsy, and includes the result only when truthy. -/
def provForManifest (inst : VMInstance) : Option JVal :=
  let cprov := inst.config.bind (fun c => c.provider_response)
  let prov :=
    match cprov with
    | some p => if jTruthy p then some p else inst.provider_response
    | none => inst.provider_response
  match prov with
  | some p => if jTruthy p then some p else none
  | none => none

/-- Manifest document VMManager._write_manifest assembles for `state`. -/
def mkManifest (w : World) (cfg : AppConfig) (inst : VMInstance) (state : String) :
    Manifest :=
  { vm_id := inst.vm_id
    image := baseName cfg.ubuntuImages
    memory_mb := cfg.memoryMb
    vcpus := cfg.vcpus
    network_mode := "slirp"
    created_at := w.now
    state := state
    provider_response := provForManifest inst }

/-- VMManager._write_manifest: atomically replaces the manifest file for the
    instance; the write itself can fail (modelled by `manifestOk`), in which
    case the map is unchanged and the error surfaces to the caller (callers
    decide whether to swallow it). -/
def write_manifest (w : World) (cfg : AppConfig)
    (manifests : List (String × Manifest)) (inst : VMInstance) (state : String) :
    Except PyErr (List (String × Manifest)) :=
  if w.manifestOk then
    Except.ok (updA inst.vm_id (mkManifest w cfg inst state) manifests)
  else Except.error PyErr.runtimeError

/-- VMManager._generate_vm_config. -/
def generate_vm_config (cfg : AppConfig) (inst : VMInstance) : VMConfig :=
  { kernel_image_path := cfg.ubuntuImages ++ "/vmlinux.bin"
    boot_args :=
      "console=ttyS0 reboot=k panic=1 pci=off init=/ssl_agent.sh VM_IP=172.50.0.2 GATEWAY_IP=172.50.0.1"
    rootfs_path := cfg.ubuntuImages ++ "/ubuntu-rootfs.ext4"
    shared_drive_path := (inst.shared_disk_path.getD "")
    tap_name := inst.tap_name.getD ""
    vcpu_count := cfg.vcpus
    mem_size_mib := cfg.memoryMb }

/-- Provider step of create_vm: when the descriptor names a truthy provider
    the manager resolves its URL and dispatches the call; an exception is
    captured as an error payload, env_overrides is defaulted to an empty
    object when falsy, and the response is recorded on the descriptor. -/
def providerStep (w : World) (cfg : AppConfig) (t : TaskData) : TaskData :=
  match t.provider with
  | some pv =>
    if jTruthy pv then
      let providerName := match pv with | JVal.jstr s => s | _ => ""
      let _url := resolve_provider_url w.env cfg.providersUrl providerName
      let resp :=
        match w.providerResult with
        | Except.ok v => v
        | Except.error msg => JVal.jobj [("error", JVal.jstr msg)]
      let t1 := if jTruthyOpt t.env_overrides then t
                else { t with env_overrides := some (JVal.jobj []) }
      { t1 with provider_response := some resp }
    else t
  | none => t

/-- VMManager.create_vm: validates a truthy descriptor, performs the
    provider call (failures captured, never raised), creates the shared
    disk, generates the configuration, prepares guest artifacts
    (best-effort: a failure is swallowed and leaves shared_disk_path at the
    ext4 image), writes the pending manifest (best-effort), and registers
    the instance. -/
def create_vm (w : World) (cfg : AppConfig) (s : SysState) (vm_id : String)
    (td : Option TaskData) : Except PyErr (SysState × VMInstance) :=
  let tdActive := match td with | some t => tdTruthy t | none => false
  let valid := match td with | some t => validate_mcp_request t | none => true
  if tdActive && !valid then Except.error PyErr.validationError
  else
    let td1 := match td with
      | some t => if tdTruthy t then some (providerStep w cfg t) else some t
      | none => none
    let inst0 : VMInstance :=
      { vm_id := vm_id
        provider_response :=
          if tdActive then td1.bind (fun t => t.provider_response) else none
        tap_name := some ("tap" ++ vm_id)
        socket_path := some (socketPath vm_id) }
    if !w.diskOk then Except.error PyErr.calledProcessError
    else
      let fs1 := fsAdd (sharedDiskPath vm_id) s.fs
      let inst1 := { inst0 with shared_disk_path := some (sharedDiskPath vm_id) }
      let conf := generate_vm_config cfg inst1
      let inst2 := { inst1 with config := some conf }
      let stepArtifacts : List String × VMInstance :=
        if w.artifactsOk then
          (fsAdd (initImgPath cfg vm_id) (fsAdd (guestTarPath cfg vm_id) fs1),
           { inst2 with
              shared_disk_path := some (guestTarPath cfg vm_id)
              config := some { conf with init_img := some (initImgPath cfg vm_id) } })
        else (fs1, inst2)
      let fs2 := stepArtifacts.1
      let inst3 := stepArtifacts.2
      let manifests1 :=
        match write_manifest w cfg s.manifests inst3 "pending" with
        | Except.ok m => m
        | Except.error _ => s.manifests
      Except.ok
        ({ s with
            fs := fs2
            manifests := manifests1
            active_vms := updA vm_id inst3 s.active_vms },
         inst3)

/-! VM start (vm_manager.VMManager.start_vm). -/

/-- Observable events of a start operation, in program order. A
    `wroteManifest` event fires when the manifest file is actually
    replaced; the put events fire when the control-plane call succeeds. -/
inductive Ev where
  | launched
  | wroteManifest (state : String)
  | putBootSource
  | putMachineConfig
  deriving DecidableEq, Repr

/-- Outcome of a start operation: final state, mutated instance, the
    exception that propagated (if any) and the event trace. -/
structure StartOut where
  state : SysState
  inst : VMInstance
  err : Option PyErr
  events : List Ev

/-- Exception handler of VMManager.start_vm: attempt to rewrite the
    manifest to failed (a failure of that write is swallowed), then
    re-raise the original exception. -/
def startFail (w : World) (cfg : AppConfig) (s : SysState) (inst : VMInstance)
    (evs : List Ev) (e : PyErr) : StartOut :=
  match write_manifest w cfg s.manifests inst "failed" with
  | Except.ok m =>
    { state := { s with manifests := m }, inst := inst, err := some e,
      events := evs ++ [Ev.wroteManifest "failed"] }
  | Except.error _ =>
    { state := s, inst := inst, err := some e, events := evs }

/-- VMManager.start_vm (no API key injected): write the boot-config file,
    remove a stale socket, then inside the guarded block launch the
    process, rewrite the manifest to running, and push boot-source and
    machine-config through the control-plane client; any exception there
    marks the manifest failed and re-raises. -/
def start_vm (w : World) (cfg : AppConfig) (s : SysState) (inst : VMInstance) :
    StartOut :=
  let fs0 := fsAdd (vmConfigPath inst.vm_id) s.fs
  let fs1 := match inst.socket_path with
    | some sp => fsDel sp fs0
    | none => fs0
  let s1 := { s with fs := fs1 }
  if !w.launchOk then startFail w cfg s1 inst [] PyErr.runtimeError
  else
    let inst2 := { inst with processRunning := some true }
    match write_manifest w cfg s1.manifests inst2 "running" with
    | Except.error e => startFail w cfg s1 inst2 [Ev.launched] e
    | Except.ok m =>
      let s2 := { s1 with manifests := m }
      let evs := [Ev.launched, Ev.wroteManifest "running"]
      if !w.putBootOk then startFail w cfg s2 inst2 evs PyErr.requestError
      else
        let evs := evs ++ [Ev.putBootSource]
        if !w.putMachineOk then startFail w cfg s2 inst2 evs PyErr.requestError
        else
          { state := s2, inst := inst2, err := none,
            events := evs ++ [Ev.putMachineConfig] }

/-! VM stop (vm_manager.VMManager.stop_vm). -/

/-- Outcome of a stop operation. -/
structure StopOut where
  state : SysState
  inst : VMInstance
  err : Option PyErr

/-- VMManager._cleanup_vm_files: best-effort unlink of the control socket,
    the file shared_disk_path points to, and the boot-config file; every
    OSError is caught and logged. -/
def cleanup_vm_files (w : World) (fs : List String) (inst : VMInstance) :
    List String :=
  let fsA := match inst.socket_path with
    | some sp => if sp ∈ fs ∧ w.unlinkSocketOk then fsDel sp fs else fs
    | none => fs
  let fsB := match inst.shared_disk_path with
    | some dp => if dp ∈ fsA ∧ w.unlinkSharedOk then fsDel dp fsA else fsA
    | none => fsA
  let cp := vmConfigPath inst.vm_id
  if cp ∈ fsB ∧ w.unlinkConfigOk then fsDel cp fsB else fsB

/-- VMManager.stop_vm: terminate a live process (graceful wait, escalate to
    kill on timeout; a ProcessLookupError from terminate is caught), clean
    up the transient files, and deregister the instance. Every failure mode
    of the source body is caught inside it, so the operation never raises. -/
def stop_vm (w : World) (_cfg : AppConfig) (s : SysState) (inst : VMInstance) :
    StopOut :=
  let inst1 :=
    match inst.processRunning with
    | some true => { inst with processRunning := some false }
    | _ => inst
  let fs1 := cleanup_vm_files w s.fs inst1
  { state := { s with fs := fs1, active_vms := eraseA inst.vm_id s.active_vms },
    inst := inst1,
    err := none }

/-! Orchestrator start path (firecracker_orchestrator.FirecrackerOrchestrator).
    This older start path performs its own inline networking (TAP plus
    iptables via subprocess, not through the Network Provisioner), spawns
    the firecracker binary directly, and reports failure by returning False;
    it never writes a manifest. -/

/-- Outcome of FirecrackerOrchestrator.start_vm. -/
structure OrchOut where
  ok : Bool
  raised : Option PyErr
  state : SysState
  events : List Ev

/-- FirecrackerOrchestrator.start_vm: inline setup_networking (raising when
    it returns None), shared-disk and config-file creation (exceptions
    propagate), then the guarded spawn: a spawn exception tears down the
    inline networking and returns False; an early process exit returns
    False without tearing anything down; otherwise True. No manifest is
    ever written on this path. -/
def orch_start_vm (w : World) (s : SysState) (vm_id : String) : OrchOut :=
  if !w.orchNetOk then
    { ok := false, raised := some PyErr.runtimeError, state := s, events := [] }
  else
    let tap := "tap" ++ vm_id
    let s1 := { s with hostTaps := fsAdd tap s.hostTaps }
    if !w.diskOk then
      { ok := false, raised := some PyErr.calledProcessError, state := s1,
        events := [] }
    else
      let s2 := { s1 with
        fs := fsAdd (vmConfigPath vm_id) (fsAdd (sharedDiskPath vm_id) s1.fs) }
      if !w.orchSpawnOk then
        { ok := false, raised := none,
          state := { s2 with hostTaps := fsDel tap s2.hostTaps }, events := [] }
      else if w.orchEarlyExit then
        { ok := false, raised := none, state := s2, events := [Ev.launched] }
      else
        { ok := true, raised := none, state := s2, events := [Ev.launched] }

/-! Network provisioner (network_manager.NetworkManager). -/

/-- NetworkManager._validate_network_config: parse the configured CIDR and
    require a private network. A non-private network raises ValueError; an
    AddressValueError is re-raised as ValueError; a NetmaskValueError
    escapes uncaught. -/
def validate_network_config (c : CidrInput) : Except PyErr Unit :=
  match c with
  | CidrInput.wellFormed a p =>
    if isPrivateNet a p then Except.ok () else Except.error PyErr.valueError
  | CidrInput.addrMalformed => Except.error PyErr.valueError
  | CidrInput.maskMalformed => Except.error PyErr.netmaskValueError

/-- NetworkManager construction: validates the configured CIDR and starts
    with an empty active-interfaces map. -/
def networkManagerInit (cfg : AppConfig) : Except PyErr (List (String × NetInfo)) :=
  (validate_network_config cfg.networkCidr).map (fun _ => [])

/-- NetworkManager.setup_tap_interface: defaults the CIDR from the
    configuration, parses it (an AddressValueError is caught and yields
    None with no interface; a NetmaskValueError escapes), then issues the
    interface commands; a CalledProcessError yields None, otherwise the
    interface is recorded in active_interfaces. No privateness check is
    performed here. -/
def setup_tap_interface (w : World) (cfg : AppConfig)
    (active : List (String × NetInfo)) (vm_id : String)
    (cidr : Option CidrInput) : Except PyErr (Option String × List (String × NetInfo)) :=
  let c := cidr.getD cfg.networkCidr
  match c with
  | CidrInput.addrMalformed => Except.ok (none, active)
  | CidrInput.maskMalformed => Except.error PyErr.netmaskValueError
  | CidrInput.wellFormed a p =>
    if w.netCmdsOk then
      let tap := "tap" ++ vm_id
      Except.ok (some tap,
        updA vm_id
          { tap_name := tap, cidr := c,
            gateway_ip := networkAddress a p + 1,
            vm_ip := networkAddress a p + 2 } active)
    else Except.ok (none, active)

/-! Ordering predicate used to state the claim that the running manifest is
    written only after both control-plane pushes. -/

/-- Every `running` manifest write in the trace is preceded by a successful
    boot-source push and a successful machine-config push. -/
def runningOnlyAfterPush (evs : List Ev) : Prop :=
  ∀ i ∈ List.range evs.length,
    evs.get? i = some (Ev.wroteManifest "running") →
      ((∃ j ∈ List.range i, evs.get? j = some Ev.putBootSource) ∧
       (∃ k ∈ List.range i, evs.get? k = some Ev.putMachineConfig))

/-- Error message carried by a failed attempt. -/
def errOf {R : Type} : Except String R → String
  | Except.error e => e
  | Except.ok _ => ""

/-- Expected sleeps of a run whose first attempt is numbered `a` and which
    sleeps `m` times: backoff multiplied by the attempt number. -/
def sleepsFor (b : ℚ) (a m : Nat) : List ℚ :=
  (List.range m).map (fun t => b * ((a + t : Nat) : ℚ))

/-! Concrete fixtures used by witnesses and counterexamples. -/

/-- A run in which every effectful step succeeds. -/
def wOk : World := {}

/-- A configuration with a genuinely private network CIDR. -/
def cfgFix : AppConfig :=
  { shared := "/srv/shared"
    results := "/srv/results"
    ubuntuImages := "/srv/images/ubuntu"
    memoryMb := 1024
    vcpus := 1
    shutdownTimeout := 5
    networkCidr := CidrInput.wellFormed (ipv4 10 0 0 0) 24 }

/-- A valid task descriptor. -/
def tdFix : TaskData :=
  { task_id := some (JVal.jstr "t1")
    prompt := some (JVal.jstr "hi")
    provider := some (JVal.jstr "ollama") }

/-- A bare instance as create_vm would hand to start_vm. -/
def instFix : VMInstance :=
  { vm_id := "vm1"
    socket_path := some (socketPath "vm1")
    tap_name := some "tapvm1" }

/-- The double-stop scenario: create vm1 from a valid descriptor with every
    effect succeeding (so guest-artifact preparation redirects
    shared_disk_path), then stop it twice. The fallback arm of the match is
    unreachable and is marked by a non-`none` error field. -/
def c4Stops : StopOut × StopOut :=
  match create_vm wOk cfgFix {} "vm1" (some tdFix) with
  | Except.ok (s, i) =>
    let o1 := stop_vm wOk cfgFix s i
    (o1, stop_vm wOk cfgFix o1.state o1.inst)
  | Except.error _ =>
    ({ state := {}, inst := { vm_id := "vm1" }, err := some PyErr.runtimeError },
     { state := {}, inst := { vm_id := "vm1" }, err := some PyErr.runtimeError })

/-- Environment with no provider variables set. -/
def envNone : String → Option String := fun _ => none

/-- Configuration attribute chain holding an empty-string URL for ollama. -/
def cfgEmptyUrl : String → Option String :=
  fun p => if p = "ollama" then some "" else none

/-- Attempt outcomes for the retry witness: the first two attempts fail,
    the third succeeds. -/
def retryFixture : Nat → Except String Nat :=
  fun k => if k = 3 then Except.ok 7 else Except.error ("boom" ++ toString k)

/-- Two consecutive stop operations on the same instance. -/
def stopTwice (w : World) (cfg : AppConfig) (s : SysState) (inst : VMInstance) :
    StopOut :=
  let o1 := stop_vm w cfg s inst
  stop_vm w cfg o1.state o1.inst

end Firecracker

namespace Firecracker

/-! Helper lemmas about the state primitives. -/

theorem lookupA_updA_self {α : Type} (k : String) (v : α) (l : List (String × α)) :
    lookupA k (updA k v l) = some v := by
  simp [lookupA, updA]

theorem lookupA_eraseA_self {α : Type} (k : String) (l : List (String × α)) :
    lookupA k (eraseA k l) = none := by
  induction l with
  | nil => rfl
  | cons kv rest ih =>
    by_cases h : kv.1 = k
    · simpa [eraseA, h] using ih
    · simpa [eraseA, lookupA, h] using ih

theorem mem_fsAdd_self (p : String) (fs : List String) : p ∈ fsAdd p fs := by
  by_cases h : p ∈ fs <;> simp [fsAdd, h]

theorem mem_fsAdd_of_mem {q : String} (p : String) {fs : List String}
    (h : q ∈ fs) : q ∈ fsAdd p fs := by
  by_cases hp : p ∈ fs <;> simp [fsAdd, hp, h]

theorem not_mem_fsDel_self (p : String) (fs : List String) : p ∉ fsDel p fs := by
  simp [fsDel]

theorem mem_fsDel_of_ne {q p : String} {fs : List String}
    (h : q ∈ fs) (hne : q ≠ p) : q ∈ fsDel p fs := by
  simp [fsDel, h, hne]

theorem not_mem_fsDel_of_not_mem {q p : String} {fs : List String}
    (h : q ∉ fs) : q ∉ fsDel p fs := by
  simp [fsDel]
  intro hq
  exact absurd hq h

/-! Schema-check characterisations. -/

theorem tyStr_iff (o : Option JVal) :
    tyStr o = true ↔ (o = none ∨ ∃ s, o = some (JVal.jstr s)) := by
  cases o with
  | none => simp [tyStr]
  | some v => cases v <;> simp [tyStr]

theorem tyInt_iff (o : Option JVal) :
    tyInt o = true ↔ (o = none ∨ ∃ n, o = some (JVal.jint n)) := by
  cases o with
  | none => simp [tyInt]
  | some v => cases v <;> simp [tyInt]

theorem isSome_tyStr_iff (o : Option JVal) :
    (o.isSome = true ∧ tyStr o = true) ↔ ∃ s, o = some (JVal.jstr s) := by
  cases o with
  | none => simp
  | some v => cases v <;> simp [tyStr]

theorem isSome_providerEnumOk_iff (o : Option JVal) :
    (o.isSome = true ∧ providerEnumOk o = true) ↔
      ∃ s, o = some (JVal.jstr s) ∧ (s = "openai" ∨ s = "ollama") := by
  cases o with
  | none => simp
  | some v =>
    cases v <;> simp [providerEnumOk, Bool.or_eq_true]

theorem envOverridesOk_iff (o : Option JVal) :
    envOverridesOk o = true ↔
      (o = none ∨ ∃ l, o = some (JVal.jobj l) ∧ ∀ kv ∈ l, ∃ s, kv.2 = JVal.jstr s) := by
  cases o with
  | none => simp [envOverridesOk]
  | some v =>
    cases v with
    | jobj l =>
      simp only [envOverridesOk, List.all_eq_true]
      constructor
      · intro h
        refine Or.inr ⟨l, rfl, fun kv hkv => ?_⟩
        have := h kv hkv
        cases hv : kv.2 <;> rw [hv] at this <;> simp_all
      · rintro (h | ⟨l2, hl2, h⟩)
        · exact absurd h (by simp)
        · have hll : JVal.jobj l = JVal.jobj l2 := by injection hl2
          injection hll with h2
          subst h2
          intro kv hkv
          obtain ⟨s, hs⟩ := h kv hkv
          rw [hs]
    | jstr s => simp [envOverridesOk]
    | jint n => simp [envOverridesOk]
    | jother => simp [envOverridesOk]

theorem validate_iff_accepted (t : TaskData) :
    validate_mcp_request t = true ↔ AcceptedDescriptor t := by
  unfold validate_mcp_request AcceptedDescriptor
  simp only [Bool.and_eq_true]
  constructor
  · rintro ⟨⟨⟨⟨⟨⟨⟨⟨h1, h2⟩, h3⟩, h4⟩, h5⟩, h6⟩, h7⟩, h8⟩, h9⟩
    refine ⟨(isSome_tyStr_iff _).mp ⟨h1, h4⟩,
            (isSome_tyStr_iff _).mp ⟨h2, h5⟩,
            (isSome_providerEnumOk_iff _).mp ⟨h3, h6⟩,
            ?_, ?_, ?_⟩
    · exact (tyStr_iff _).mp h7 |>.imp id id
    · exact (tyInt_iff _).mp h8 |>.imp id id
    · exact (envOverridesOk_iff _).mp h9
  · rintro ⟨hid, hpr, hprov, hm, ht, he⟩
    have h1 := (isSome_tyStr_iff _).mpr hid
    have h2 := (isSome_tyStr_iff _).mpr hpr
    have h3 := (isSome_providerEnumOk_iff _).mpr hprov
    exact ⟨⟨⟨⟨⟨⟨⟨⟨h1.1, h2.1⟩, h3.1⟩, h1.2⟩, h2.2⟩, h3.2⟩,
      (tyStr_iff _).mpr hm⟩, (tyInt_iff _).mpr ht⟩, (envOverridesOk_iff _).mpr he⟩

/-- Claim C7, counterexample: a descriptor with string task_id and string
    prompt but no provider is rejected by validate_mcp_request (the schema
    lists provider among the required fields), whereas the claim says such
    a descriptor is accepted. -/
theorem C7_counterexample :
    validate_mcp_request
      { task_id := some (JVal.jstr "t1"), prompt := some (JVal.jstr "hi") } = false := by
  rfl

/-- Claim C7 (amended): task-descriptor validation accepts exactly the
    descriptors carrying a string task_id, a string prompt and a string
    provider drawn from the closed set openai/ollama — provider is required,
    not optional — while model, timeout_seconds and env_overrides are
    optional but must be a string, an integer, and a string-valued object
    respectively when present. -/
theorem C7_validation_exact (t : TaskData) :
    validate_mcp_request t = true ↔ AcceptedDescriptor t :=
  validate_iff_accepted t

/-- Claim C3: for every valid task descriptor, create_vm completes without
    raising when the shared-disk and manifest writes succeed, and
    immediately afterwards the manifest for the VM exists at state pending
    and the instance is registered in the active-VMs map. -/
theorem C3_create_yields_pending (w : World) (cfg : AppConfig) (s : SysState)
    (vm_id : String) (t : TaskData)
    (hv : validate_mcp_request t = true) (hd : w.diskOk = true)
    (hm : w.manifestOk = true) :
    ∃ s2 inst, create_vm w cfg s vm_id (some t) = Except.ok (s2, inst) ∧
      (∃ m, lookupA vm_id s2.manifests = some m ∧ m.state = "pending") ∧
      lookupA vm_id s2.active_vms = some inst := by
  cases hA : w.artifactsOk <;>
    simp only [create_vm, hv, hd, hm, hA, write_manifest, Bool.not_true,
      Bool.and_false, Bool.not_false, if_false, if_true, ite_true, ite_false,
      Bool.false_eq_true, Bool.true_eq_false] <;>
    exact ⟨_, _, rfl, ⟨_, lookupA_updA_self _ _ _, rfl⟩, lookupA_updA_self _ _ _⟩

/-- Witness for the C3 theorem at a concrete valid descriptor and an
    all-succeeding run. -/
theorem C3_create_yields_pending_witness :
    ∃ s2 inst, create_vm wOk cfgFix {} "vm1" (some tdFix) = Except.ok (s2, inst) ∧
      (∃ m, lookupA "vm1" s2.manifests = some m ∧ m.state = "pending") ∧
      lookupA "vm1" s2.active_vms = some inst :=
  C3_create_yields_pending wOk cfgFix {} "vm1" tdFix (by decide) rfl rfl

/-- Claim C5: when the descriptor names a provider and the dispatched
    provider call fails, create_vm does not raise: it still returns an
    instance whose manifest is at pending, and the failure is recorded as
    an error payload in provider_response on the instance and in the
    manifest. -/
theorem C5_provider_failure_not_fatal (w : World) (cfg : AppConfig)
    (s : SysState) (vm_id : String) (t : TaskData) (msg : String)
    (hv : validate_mcp_request t = true)
    (hp : w.providerResult = Except.error msg)
    (hd : w.diskOk = true) (hm : w.manifestOk = true) :
    ∃ s2 inst, create_vm w cfg s vm_id (some t) = Except.ok (s2, inst) ∧
      inst.provider_response = some (JVal.jobj [("error", JVal.jstr msg)]) ∧
      (∃ m, lookupA vm_id s2.manifests = some m ∧ m.state = "pending" ∧
        m.provider_response = some (JVal.jobj [("error", JVal.jstr msg)])) := by
  obtain ⟨⟨a, ha⟩, ⟨p0, hp0⟩, ⟨pr, hpr, hen⟩, _, _, _⟩ :=
    (validate_iff_accepted t).mp hv
  have htd : tdTruthy t = true := by simp [tdTruthy, ha]
  have hjt : jTruthy (JVal.jstr pr) = true := by
    rcases hen with h | h <;> subst h <;> decide
  have hps : (providerStep w cfg t).provider_response =
      some (JVal.jobj [("error", JVal.jstr msg)]) := by
    simp [providerStep, hpr, hjt, hp]
  cases hA : w.artifactsOk <;>
    simp only [create_vm, hv, hd, hm, hA, htd, write_manifest, Bool.not_true,
      Bool.and_false, if_false, ite_true, ite_false, Bool.false_eq_true] <;>
    refine ⟨_, _, rfl, ?_, _, lookupA_updA_self _ _ _, rfl, ?_⟩ <;>
    simp [htd, hps, mkManifest, provForManifest, generate_vm_config, jTruthy]

/-- Witness for the C5 theorem: a concrete descriptor naming ollama with a
    failing provider call. -/
theorem C5_provider_failure_not_fatal_witness :
    ∃ s2 inst, create_vm { wOk with providerResult := Except.error "boom" }
        cfgFix {} "vm1" (some tdFix) = Except.ok (s2, inst) ∧
      inst.provider_response = some (JVal.jobj [("error", JVal.jstr "boom")]) ∧
      (∃ m, lookupA "vm1" s2.manifests = some m ∧ m.state = "pending" ∧
        m.provider_response = some (JVal.jobj [("error", JVal.jstr "boom")])) :=
  C5_provider_failure_not_fatal { wOk with providerResult := Except.error "boom" }
    cfgFix {} "vm1" tdFix "boom" (by decide) rfl rfl rfl

theorem startFail_spec (w : World) (cfg : AppConfig) (s : SysState)
    (inst : VMInstance) (evs : List Ev) (e : PyErr) (hM : w.manifestOk = true) :
    (startFail w cfg s inst evs e).err = some e ∧
    lookupA inst.vm_id (startFail w cfg s inst evs e).state.manifests =
      some (mkManifest w cfg inst "failed") ∧
    (startFail w cfg s inst evs e).events = evs ++ [Ev.wroteManifest "failed"] ∧
    (startFail w cfg s inst evs e).state.netActive = s.netActive := by
  simp [startFail, write_manifest, hM, lookupA_updA_self]

/-- Claim C2, counterexample: in a fully successful start, the event trace
    of VMManager.start_vm contains the running manifest write strictly
    before the boot-source and machine-config pushes, so the manifest is at
    running while boot configuration has not yet succeeded. -/
theorem C2_counterexample :
    Ev.wroteManifest "running" ∈ (start_vm wOk cfgFix {} instFix).events ∧
    ¬ runningOnlyAfterPush (start_vm wOk cfgFix {} instFix).events := by
  have h : (start_vm wOk cfgFix {} instFix).events =
      [Ev.launched, Ev.wroteManifest "running", Ev.putBootSource,
       Ev.putMachineConfig] := rfl
  rw [h]
  refine ⟨by decide, fun hcl => ?_⟩
  obtain ⟨⟨j, hj, hj2⟩, _⟩ := hcl 1 (by decide) rfl
  have hj0 : j = 0 := by
    have := List.mem_range.mp hj
    omega
  subst hj0
  exact absurd hj2 (by decide)

/-- Claim C2 (amended): start_vm rewrites the manifest to running
    immediately after the launcher starts and before either control-plane
    push; a failing push then raises after rewriting the manifest to
    failed, and only a fully successful start leaves the manifest at
    running. -/
theorem C2_running_written_before_controlplane (w : World) (cfg : AppConfig)
    (s : SysState) (inst : VMInstance)
    (hL : w.launchOk = true) (hM : w.manifestOk = true) :
    ((start_vm w cfg s inst).events.take 2 =
      [Ev.launched, Ev.wroteManifest "running"]) ∧
    ((w.putBootOk = false ∨ w.putMachineOk = false) →
      (start_vm w cfg s inst).err.isSome = true ∧
      ∃ m, lookupA inst.vm_id (start_vm w cfg s inst).state.manifests = some m ∧
        m.state = "failed") ∧
    (w.putBootOk = true → w.putMachineOk = true →
      (start_vm w cfg s inst).err = none ∧
      ∃ m, lookupA inst.vm_id (start_vm w cfg s inst).state.manifests = some m ∧
        m.state = "running") := by
  refine ⟨?_, ?_, ?_⟩
  · cases hB : w.putBootOk <;> cases hC : w.putMachineOk <;>
      simp [start_vm, startFail, write_manifest, hL, hM, hB, hC]
  · rintro (hB | hC)
    · simp only [start_vm, startFail, write_manifest, hL, hM, hB, Bool.not_true,
        Bool.not_false, if_false, if_true, ite_true, ite_false,
        Bool.false_eq_true, Bool.true_eq_false]
      exact ⟨by simp, _, lookupA_updA_self _ _ _, rfl⟩
    · cases hB2 : w.putBootOk <;>
        simp only [start_vm, startFail, write_manifest, hL, hM, hB2, hC,
          Bool.not_true, Bool.not_false, if_false, if_true, ite_true, ite_false,
          Bool.false_eq_true, Bool.true_eq_false] <;>
        exact ⟨by simp, _, lookupA_updA_self _ _ _, rfl⟩
  · intro hB hC
    simp only [start_vm, startFail, write_manifest, hL, hM, hB, hC,
      Bool.not_true, Bool.not_false, if_false, if_true, ite_true, ite_false,
      Bool.false_eq_true, Bool.true_eq_false]
    exact ⟨by simp, _, lookupA_updA_self _ _ _, rfl⟩

/-- Witness for the amended C2 theorem at a concrete successful run. -/
theorem C2_running_written_before_controlplane_witness :
    ((start_vm wOk cfgFix {} instFix).events.take 2 =
      [Ev.launched, Ev.wroteManifest "running"]) ∧
    ((wOk.putBootOk = false ∨ wOk.putMachineOk = false) →
      (start_vm wOk cfgFix {} instFix).err.isSome = true ∧
      ∃ m, lookupA instFix.vm_id (start_vm wOk cfgFix {} instFix).state.manifests =
          some m ∧ m.state = "failed") ∧
    (wOk.putBootOk = true → wOk.putMachineOk = true →
      (start_vm wOk cfgFix {} instFix).err = none ∧
      ∃ m, lookupA instFix.vm_id (start_vm wOk cfgFix {} instFix).state.manifests =
          some m ∧ m.state = "running") :=
  C2_running_written_before_controlplane wOk cfgFix {} instFix rfl rfl

/-- Claim C1, counterexample: FirecrackerOrchestrator.start_vm is a start
    operation in which the spawn of the VM process raises, yet the failure
    is swallowed (False is returned, nothing propagates) and no manifest is
    ever rewritten — the manifest store is untouched, so no failed state is
    recorded, contradicting the claim for this start path. -/
theorem C1_counterexample :
    (orch_start_vm { orchSpawnOk := false } {} "vm1").raised = none ∧
    (orch_start_vm { orchSpawnOk := false } {} "vm1").ok = false ∧
    (orch_start_vm { orchSpawnOk := false } {} "vm1").state.manifests = [] :=
  ⟨rfl, rfl, rfl⟩

/-- Claim C1 (amended): in VMManager.start_vm, every failure of the launch
    or control-plane steps rewrites the manifest to failed as the last
    action before the exception propagates, and start never touches the
    Network Provisioner's active-interfaces set, so the VM stays absent
    from it whenever it was absent before; the orchestrator's legacy start
    path instead swallows the failure and returns False without writing any
    manifest. -/
theorem C1_failure_reaches_failed_manifest (w : World) (cfg : AppConfig)
    (s : SysState) (inst : VMInstance)
    (hM : w.manifestOk = true)
    (hf : w.launchOk = false ∨ w.putBootOk = false ∨ w.putMachineOk = false) :
    (start_vm w cfg s inst).err.isSome = true ∧
    (start_vm w cfg s inst).events.getLast? = some (Ev.wroteManifest "failed") ∧
    (∃ m, lookupA inst.vm_id (start_vm w cfg s inst).state.manifests = some m ∧
      m.state = "failed") ∧
    (start_vm w cfg s inst).state.netActive = s.netActive ∧
    (inst.vm_id ∉ keysA s.netActive →
      inst.vm_id ∉ keysA (start_vm w cfg s inst).state.netActive) := by
  rcases hf with hL | hB | hC
  · simp only [start_vm, startFail, write_manifest, hM, hL, Bool.not_true,
      Bool.not_false, if_false, if_true, ite_true, ite_false,
      Bool.false_eq_true, Bool.true_eq_false]
    refine ⟨?_, ?_, ⟨_, lookupA_updA_self _ _ _, rfl⟩, ?_, ?_⟩ <;> simp
  · cases hL2 : w.launchOk <;>
      simp only [start_vm, startFail, write_manifest, hM, hL2, hB, Bool.not_true,
        Bool.not_false, if_false, if_true, ite_true, ite_false,
        Bool.false_eq_true, Bool.true_eq_false] <;>
      refine ⟨?_, ?_, ⟨_, lookupA_updA_self _ _ _, rfl⟩, ?_, ?_⟩ <;> simp
  · cases hL2 : w.launchOk
    · simp only [start_vm, startFail, write_manifest, hM, hL2, Bool.not_true,
        Bool.not_false, if_false, if_true, ite_true, ite_false,
        Bool.false_eq_true, Bool.true_eq_false]
      refine ⟨?_, ?_, ⟨_, lookupA_updA_self _ _ _, rfl⟩, ?_, ?_⟩ <;> simp
    · cases hB2 : w.putBootOk <;>
        simp only [start_vm, startFail, write_manifest, hM, hL2, hB2, hC,
          Bool.not_true, Bool.not_false, if_false, if_true, ite_true, ite_false,
          Bool.false_eq_true, Bool.true_eq_false] <;>
        refine ⟨?_, ?_, ⟨_, lookupA_updA_self _ _ _, rfl⟩, ?_, ?_⟩ <;> simp

/-- Witness for the amended C1 theorem: a concrete run whose launch step
    fails. -/
theorem C1_failure_reaches_failed_manifest_witness :
    (start_vm { wOk with launchOk := false } cfgFix {} instFix).err.isSome = true ∧
    (start_vm { wOk with launchOk := false } cfgFix {} instFix).events.getLast? =
      some (Ev.wroteManifest "failed") ∧
    (∃ m, lookupA instFix.vm_id
        (start_vm { wOk with launchOk := false } cfgFix {} instFix).state.manifests =
        some m ∧ m.state = "failed") ∧
    (start_vm { wOk with launchOk := false } cfgFix {} instFix).state.netActive =
      SysState.netActive {} ∧
    (instFix.vm_id ∉ keysA (SysState.netActive {}) →
      instFix.vm_id ∉ keysA
        (start_vm { wOk with launchOk := false } cfgFix {} instFix).state.netActive) :=
  C1_failure_reaches_failed_manifest { wOk with launchOk := false } cfgFix {}
    instFix rfl (Or.inl rfl)

/-- Claim C9, counterexample: with no environment override and a
    configuration whose providers.ollama.url attribute is present but
    empty, resolve_provider_url skips the configuration value (the source
    tests it for truthiness, not presence) and returns the built-in
    default, while the claim as stated returns the configuration value. -/
theorem C9_counterexample :
    resolve_provider_url envNone cfgEmptyUrl "ollama" =
        some "http://localhost:11434/api/generate" ∧
      resolveSpecWord envNone cfgEmptyUrl "ollama" = some "" ∧
      resolve_provider_url envNone cfgEmptyUrl "ollama" ≠
        resolveSpecWord envNone cfgEmptyUrl "ollama" := by
  refine ⟨rfl, rfl, ?_⟩
  decide

/-- Claim C9 (amended): a set, non-empty environment variable
    <PROVIDER>_URL wins over any configuration value; otherwise a present
    and non-empty configuration URL wins; otherwise the built-in default
    table (which covers exactly ollama and openai) decides. -/
theorem C9_resolution_precedence (env provUrl : String → Option String)
    (p : String) :
    (∀ v, env (p.toUpper ++ "_URL") = some v → v ≠ "" →
       resolve_provider_url env provUrl p = some v) ∧
    ((env (p.toUpper ++ "_URL") = none ∨ env (p.toUpper ++ "_URL") = some "") →
       ∀ u, provUrl p = some u → u ≠ "" →
         resolve_provider_url env provUrl p = some u) ∧
    ((env (p.toUpper ++ "_URL") = none ∨ env (p.toUpper ++ "_URL") = some "") →
       (provUrl p = none ∨ provUrl p = some "") →
         resolve_provider_url env provUrl p = providerDefaults p) := by
  refine ⟨?_, ?_, ?_⟩
  · intro v hv hne
    simp [resolve_provider_url, hv, truthyStr, hne]
  · rintro (h | h) u hu hne <;>
      simp [resolve_provider_url, h, hu, truthyStr, hne]
  · rintro (h | h) (h2 | h2) <;>
      simp [resolve_provider_url, h, h2, truthyStr]

/-- Witness for the amended C9 theorem: for ollama with OLLAMA_URL set to
    a non-empty value the environment wins over a configured URL. -/
theorem sleepsFor_succ (b : ℚ) (a m : Nat) :
    sleepsFor b a (m + 1) = b * (a : ℚ) :: sleepsFor b (a + 1) m := by
  unfold sleepsFor
  rw [List.range_succ_eq_map, List.map_cons, List.map_map]
  refine congrArg₂ List.cons (by norm_num) ?_
  apply List.map_congr_left
  intro t _
  simp only [Function.comp_apply]
  push_cast
  ring

theorem sleepsFor_zero (b : ℚ) (a : Nat) : sleepsFor b a 0 = [] := rfl

theorem retryGo_zero {R : Type} (f : Nat → Except String R) (b : ℚ)
    (a : Nat) (last : Option String) :
    retryGo f b a 0 last = ⟨Except.error last, 0, []⟩ := rfl

theorem retryGo_succ_unfold {R : Type} (f : Nat → Except String R) (b : ℚ)
    (a n : Nat) (last : Option String) :
    retryGo f b a (n + 1) last =
      match f a with
      | Except.ok r => ⟨Except.ok r, 1, []⟩
      | Except.error e =>
        ⟨(retryGo f b (a + 1) n (some e)).result,
         (retryGo f b (a + 1) n (some e)).attempts + 1,
         b * (a : ℚ) :: (retryGo f b (a + 1) n (some e)).sleeps⟩ := rfl

theorem except_eq_error_of_not_ok {R : Type} {e : Except String R}
    (h : e.isOk = false) : e = Except.error (errOf e) := by
  cases e with
  | ok r => simp [Except.isOk, Except.toBool] at h
  | error msg => rfl

theorem retryGo_attempts_le {R : Type} (f : Nat → Except String R) (b : ℚ) :
    ∀ fuel a last, (retryGo f b a fuel last).attempts ≤ fuel := by
  intro fuel
  induction fuel with
  | zero => intro a last; simp [retryGo]
  | succ n ih =>
    intro a last
    cases hf : f a with
    | ok r => simp [retryGo, hf]
    | error e =>
      simp only [retryGo, hf]
      exact Nat.succ_le_succ (ih (a + 1) (some e))

theorem retryGo_sleeps_shape {R : Type} (f : Nat → Except String R) (b : ℚ) :
    ∀ fuel a last, ∃ m, (retryGo f b a fuel last).sleeps = sleepsFor b a m := by
  intro fuel
  induction fuel with
  | zero => intro a last; exact ⟨0, by simp [retryGo, sleepsFor]⟩
  | succ n ih =>
    intro a last
    cases hf : f a with
    | ok r => exact ⟨0, by simp [retryGo, hf, sleepsFor]⟩
    | error e =>
      obtain ⟨m, hm⟩ := ih (a + 1) (some e)
      refine ⟨m + 1, ?_⟩
      simp only [retryGo, hf, hm, sleepsFor_succ]

theorem retryGo_allFail {R : Type} (f : Nat → Except String R) (b : ℚ) :
    ∀ n a last, (∀ j, a ≤ j → j < a + (n + 1) → (f j).isOk = false) →
      (retryGo f b a (n + 1) last).result =
          Except.error (some (errOf (f (a + n)))) ∧
        (retryGo f b a (n + 1) last).attempts = n + 1 ∧
        (retryGo f b a (n + 1) last).sleeps = sleepsFor b a (n + 1) := by
  intro n
  induction n with
  | zero =>
    intro a last h
    have ha : (f a).isOk = false := h a (Nat.le_refl a) (by omega)
    obtain ⟨e, he⟩ : ∃ e, f a = Except.error e := ⟨_, except_eq_error_of_not_ok ha⟩
    refine ⟨?_, ?_, ?_⟩ <;> rw [retryGo_succ_unfold, he] <;> dsimp only <;>
      rw [retryGo_zero] <;> simp [he, errOf, sleepsFor_succ, sleepsFor_zero]
  | succ m ih =>
    intro a last h
    have ha : (f a).isOk = false := h a (Nat.le_refl a) (by omega)
    obtain ⟨e, he⟩ : ∃ e, f a = Except.error e := ⟨_, except_eq_error_of_not_ok ha⟩
    have hrest := ih (a + 1) (some e)
      (fun j hj1 hj2 => h j (by omega) (by omega))
    have hidx : a + 1 + m = a + (m + 1) := by omega
    refine ⟨?_, ?_, ?_⟩ <;> rw [retryGo_succ_unfold, he] <;> dsimp only
    · rw [hrest.1, hidx]
    · rw [hrest.2.1]
    · rw [hrest.2.2, ← sleepsFor_succ]

theorem retryGo_success {R : Type} (f : Nat → Except String R) (b : ℚ) :
    ∀ i a last fuel, i < fuel →
      (∀ j, a ≤ j → j < a + i → (f j).isOk = false) →
      ∀ r, f (a + i) = Except.ok r →
      (retryGo f b a fuel last).result = Except.ok r ∧
        (retryGo f b a fuel last).attempts = i + 1 ∧
        (retryGo f b a fuel last).sleeps = sleepsFor b a i := by
  intro i
  induction i with
  | zero =>
    intro a last fuel hfu h r hr
    obtain ⟨k, rfl⟩ : ∃ k, fuel = k + 1 := ⟨fuel - 1, by omega⟩
    have hfa : f a = Except.ok r := by simpa using hr
    refine ⟨?_, ?_, ?_⟩ <;> rw [retryGo_succ_unfold, hfa] <;> rfl
  | succ m ih =>
    intro a last fuel hfu h r hr
    obtain ⟨k, rfl⟩ : ∃ k, fuel = k + 1 := ⟨fuel - 1, by omega⟩
    have ha : (f a).isOk = false := h a (Nat.le_refl a) (by omega)
    obtain ⟨e, he⟩ : ∃ e, f a = Except.error e := ⟨_, except_eq_error_of_not_ok ha⟩
    have hrest := ih (a + 1) (some e) k (by omega)
      (fun j hj1 hj2 => h j (by omega) (by omega)) r
      (by rw [show a + 1 + m = a + (m + 1) by omega]; exact hr)
    refine ⟨?_, ?_, ?_⟩ <;> rw [retryGo_succ_unfold, he] <;> dsimp only
    · rw [hrest.1]
    · rw [hrest.2.1]
    · rw [hrest.2.2, ← sleepsFor_succ]

theorem sleepsFor_pairwise {b : ℚ} (hb : 0 < b) (a m : Nat) :
    List.Pairwise (· < ·) (sleepsFor b a m) := by
  unfold sleepsFor
  apply List.Pairwise.map
  · intro x y hxy
    have hcast : ((a + x : Nat) : ℚ) < ((a + y : Nat) : ℚ) := by
      exact_mod_cast Nat.add_lt_add_left hxy a
    exact mul_lt_mul_of_pos_left hcast hb
  · exact List.pairwise_lt_range m

/-- Claim C8: post_with_retries makes at most `retries` attempts; its
    sleeps are the strictly increasing linear sequence backoff times the
    attempt number; a success at attempt k (the earlier ones failing)
    returns that response having made exactly k attempts; and when every
    attempt fails the exception of the last attempt is re-raised
    unchanged. -/
theorem C8_post_with_retries_spec {R : Type} (f : Nat → Except String R)
    (retries : Nat) (backoff : ℚ) (hr : 1 ≤ retries) (hb : 0 < backoff) :
    (post_with_retries f retries backoff).attempts ≤ retries ∧
    List.Pairwise (· < ·) (post_with_retries f retries backoff).sleeps ∧
    (∀ k r, 1 ≤ k → k ≤ retries →
      (∀ j, 1 ≤ j → j < k → (f j).isOk = false) → f k = Except.ok r →
      (post_with_retries f retries backoff).result = Except.ok r ∧
        (post_with_retries f retries backoff).attempts = k) ∧
    ((∀ j, 1 ≤ j → j ≤ retries → (f j).isOk = false) →
      (post_with_retries f retries backoff).result =
        Except.error (some (errOf (f retries)))) := by
  refine ⟨retryGo_attempts_le f backoff retries 1 none, ?_, ?_, ?_⟩
  · obtain ⟨m, hm⟩ := retryGo_sleeps_shape f backoff retries 1 none
    rw [post_with_retries, hm]
    exact sleepsFor_pairwise hb 1 m
  · intro k r hk1 hk2 hfail hok
    have hs := retryGo_success f backoff (k - 1) 1 none retries (by omega)
      (fun j hj1 hj2 => hfail j hj1 (by omega)) r
      (by rw [show 1 + (k - 1) = k by omega]; exact hok)
    refine ⟨hs.1, ?_⟩
    have h2 : (post_with_retries f retries backoff).attempts = k - 1 + 1 := hs.2.1
    omega
  · intro hfail
    obtain ⟨n, rfl⟩ : ∃ n, retries = n + 1 := ⟨retries - 1, by omega⟩
    have hall := retryGo_allFail f backoff n 1 none
      (fun j hj1 hj2 => hfail j hj1 (by omega))
    have h1 : (post_with_retries f (n + 1) backoff).result =
        Except.error (some (errOf (f (1 + n)))) := hall.1
    rw [h1, show 1 + n = n + 1 by omega]

/-- Witness for the C8 theorem: three allowed attempts with backoff one
    half, the first two attempts failing and the third succeeding. -/
theorem C8_post_with_retries_spec_witness :
    (post_with_retries retryFixture 3 (1 / 2)).attempts ≤ 3 ∧
    List.Pairwise (· < ·) (post_with_retries retryFixture 3 (1 / 2)).sleeps ∧
    (∀ k r, 1 ≤ k → k ≤ 3 →
      (∀ j, 1 ≤ j → j < k → (retryFixture j).isOk = false) →
      retryFixture k = Except.ok r →
      (post_with_retries retryFixture 3 (1 / 2)).result = Except.ok r ∧
        (post_with_retries retryFixture 3 (1 / 2)).attempts = k) ∧
    ((∀ j, 1 ≤ j → j ≤ 3 → (retryFixture j).isOk = false) →
      (post_with_retries retryFixture 3 (1 / 2)).result =
        Except.error (some (errOf (retryFixture 3)))) :=
  C8_post_with_retries_spec retryFixture 3 (1 / 2) (by norm_num) (by norm_num)

theorem C9_resolution_precedence_witness :
    resolve_provider_url (fun _ => some "http://x")
      (fun q => if q = "ollama" then some "http://cfg" else none) "ollama" =
      some "http://x" :=
  (C9_resolution_precedence (fun _ => some "http://x")
      (fun q => if q = "ollama" then some "http://cfg" else none) "ollama").1
    "http://x" rfl (by decide)

/-! Lemmas about stop_vm and _cleanup_vm_files. -/

theorem mem_of_mem_fsDel {q p : String} {fs : List String}
    (h : q ∈ fsDel p fs) : q ∈ fs := by
  simp [fsDel] at h
  exact h.1

theorem not_mem_ite_del {q p : String} {fs : List String} {c : Prop}
    [Decidable c] (h : q ∉ fs) : q ∉ (if c then fsDel p fs else fs) := by
  split
  · exact not_mem_fsDel_of_not_mem h
  · exact h

theorem mem_ite_del {q p : String} {fs : List String} {c : Prop}
    [Decidable c] (hq : q ∈ fs) (hne : q ≠ p) :
    q ∈ (if c then fsDel p fs else fs) := by
  split
  · exact mem_fsDel_of_ne hq hne
  · exact hq

theorem self_not_mem_ite_del {p : String} {fs : List String} {ok : Bool}
    (hok : ok = true) : p ∉ (if p ∈ fs ∧ ok = true then fsDel p fs else fs) := by
  split
  · exact not_mem_fsDel_self p fs
  · rename_i hcond
    intro hmem
    exact hcond ⟨hmem, hok⟩

theorem socket_not_mem_cleanup {w : World} {fs : List String}
    {inst : VMInstance} {sp : String}
    (hso : w.unlinkSocketOk = true) (hsp : inst.socket_path = some sp) :
    sp ∉ cleanup_vm_files w fs inst := by
  simp only [cleanup_vm_files, hsp]
  cases hdp : inst.shared_disk_path with
  | none => exact not_mem_ite_del (self_not_mem_ite_del hso)
  | some dp =>
    exact not_mem_ite_del (not_mem_ite_del (self_not_mem_ite_del hso))

theorem shared_not_mem_cleanup {w : World} {fs : List String}
    {inst : VMInstance} {dp : String}
    (hsh : w.unlinkSharedOk = true) (hdp : inst.shared_disk_path = some dp) :
    dp ∉ cleanup_vm_files w fs inst := by
  simp only [cleanup_vm_files, hdp]
  exact not_mem_ite_del (self_not_mem_ite_del hsh)

theorem config_not_mem_cleanup {w : World} {fs : List String}
    {inst : VMInstance} (hc : w.unlinkConfigOk = true) :
    vmConfigPath inst.vm_id ∉ cleanup_vm_files w fs inst := by
  simp only [cleanup_vm_files]
  exact self_not_mem_ite_del hc

theorem mem_cleanup_of_ne {w : World} {fs : List String} {inst : VMInstance}
    {q : String} (hq : q ∈ fs)
    (h1 : ∀ sp, inst.socket_path = some sp → q ≠ sp)
    (h2 : ∀ dp, inst.shared_disk_path = some dp → q ≠ dp)
    (h3 : q ≠ vmConfigPath inst.vm_id) :
    q ∈ cleanup_vm_files w fs inst := by
  simp only [cleanup_vm_files]
  cases hsp : inst.socket_path with
  | none =>
    cases hdp : inst.shared_disk_path with
    | none => exact mem_ite_del hq h3
    | some dp => exact mem_ite_del (mem_ite_del hq (h2 dp hdp)) h3
  | some sp =>
    cases hdp : inst.shared_disk_path with
    | none => exact mem_ite_del (mem_ite_del hq (h1 sp hsp)) h3
    | some dp =>
      exact mem_ite_del (mem_ite_del (mem_ite_del hq (h1 sp hsp)) (h2 dp hdp)) h3

theorem stop_vm_inst_fields (w : World) (cfg : AppConfig) (s : SysState)
    (inst : VMInstance) :
    (stop_vm w cfg s inst).inst.socket_path = inst.socket_path ∧
    (stop_vm w cfg s inst).inst.shared_disk_path = inst.shared_disk_path ∧
    (stop_vm w cfg s inst).inst.vm_id = inst.vm_id := by
  cases hp : inst.processRunning with
  | none => simp [stop_vm, hp]
  | some b => cases b <;> simp [stop_vm, hp]

theorem stop_vm_state_fs (w : World) (cfg : AppConfig) (s : SysState)
    (inst : VMInstance) :
    (stop_vm w cfg s inst).state.fs = cleanup_vm_files w s.fs inst := by
  cases hp : inst.processRunning with
  | none => simp [stop_vm, hp]
  | some b => cases b <;> simp [stop_vm, hp, cleanup_vm_files]

theorem cleanup_vm_files_congr (w : World) (fs : List String)
    {i1 i2 : VMInstance}
    (h1 : i1.socket_path = i2.socket_path)
    (h2 : i1.shared_disk_path = i2.shared_disk_path)
    (h3 : i1.vm_id = i2.vm_id) :
    cleanup_vm_files w fs i1 = cleanup_vm_files w fs i2 := by
  unfold cleanup_vm_files
  rw [h1, h2, h3]

theorem stopTwice_state_fs (w : World) (cfg : AppConfig) (s : SysState)
    (inst : VMInstance) :
    (stopTwice w cfg s inst).state.fs =
      cleanup_vm_files w (cleanup_vm_files w s.fs inst) inst := by
  obtain ⟨h1, h2, h3⟩ := stop_vm_inst_fields w cfg s inst
  unfold stopTwice
  rw [stop_vm_state_fs, stop_vm_state_fs,
    cleanup_vm_files_congr w _ h1 h2 h3]

/-- Claim C4, counterexample: after a successful create (in which
    guest-artifact preparation redirected shared_disk_path to the guest
    tarball) and two stops, neither stop raises but the shared-channel
    image /tmp/shared-vm1.ext4 is still on disk — stop deleted the tarball
    instead, so the claim's assertion that no shared-channel file remains
    is false. -/
theorem C4_counterexample :
    c4Stops.1.err = none ∧ c4Stops.2.err = none ∧
    sharedDiskPath "vm1" ∈ c4Stops.2.state.fs := by
  refine ⟨rfl, rfl, ?_⟩
  decide

/-- Claim C4 (amended): stop is idempotent and never raises — each catch
    in its body swallows the corresponding failure — and when the unlink
    calls succeed, a double stop leaves no control socket, no boot-config
    file and no file at shared_disk_path, deregisters the instance, and
    leaves the Network Provisioner's active-interfaces set untouched (so
    the VM stays absent from it whenever it was never attached); however
    the /tmp/shared-<vm_id>.ext4 image itself survives whenever
    shared_disk_path was redirected away from it at create time. -/
theorem C4_stop_idempotent_cleanup (w : World) (cfg : AppConfig)
    (s : SysState) (inst : VMInstance)
    (hso : w.unlinkSocketOk = true) (hsh : w.unlinkSharedOk = true)
    (hc : w.unlinkConfigOk = true) :
    (stop_vm w cfg s inst).err = none ∧
    (stopTwice w cfg s inst).err = none ∧
    (∀ sp, inst.socket_path = some sp →
      sp ∉ (stopTwice w cfg s inst).state.fs) ∧
    (∀ dp, inst.shared_disk_path = some dp →
      dp ∉ (stopTwice w cfg s inst).state.fs) ∧
    vmConfigPath inst.vm_id ∉ (stopTwice w cfg s inst).state.fs ∧
    (stopTwice w cfg s inst).state.netActive = s.netActive ∧
    (inst.vm_id ∉ keysA s.netActive →
      inst.vm_id ∉ keysA (stopTwice w cfg s inst).state.netActive) ∧
    lookupA inst.vm_id (stopTwice w cfg s inst).state.active_vms = none := by
  obtain ⟨h1, h2, h3⟩ := stop_vm_inst_fields w cfg s inst
  refine ⟨rfl, rfl, ?_, ?_, ?_, rfl, fun h => h, ?_⟩
  · intro sp hsp
    rw [stopTwice_state_fs]
    exact socket_not_mem_cleanup hso hsp
  · intro dp hdp
    rw [stopTwice_state_fs]
    exact shared_not_mem_cleanup hsh hdp
  · rw [stopTwice_state_fs]
    exact config_not_mem_cleanup hc
  · show lookupA inst.vm_id
      (eraseA (stop_vm w cfg s inst).inst.vm_id
        (eraseA inst.vm_id s.active_vms)) = none
    rw [h3]
    exact lookupA_eraseA_self _ _

/-- Witness for the amended C4 theorem at a concrete instance. -/
theorem C4_stop_idempotent_cleanup_witness :
    (stop_vm wOk cfgFix {} instFix).err = none ∧
    (stopTwice wOk cfgFix {} instFix).err = none ∧
    (∀ sp, instFix.socket_path = some sp →
      sp ∉ (stopTwice wOk cfgFix {} instFix).state.fs) ∧
    (∀ dp, instFix.shared_disk_path = some dp →
      dp ∉ (stopTwice wOk cfgFix {} instFix).state.fs) ∧
    vmConfigPath instFix.vm_id ∉ (stopTwice wOk cfgFix {} instFix).state.fs ∧
    (stopTwice wOk cfgFix {} instFix).state.netActive = SysState.netActive {} ∧
    (instFix.vm_id ∉ keysA (SysState.netActive {}) →
      instFix.vm_id ∉ keysA (stopTwice wOk cfgFix {} instFix).state.netActive) ∧
    lookupA instFix.vm_id (stopTwice wOk cfgFix {} instFix).state.active_vms =
      none :=
  C4_stop_idempotent_cleanup wOk cfgFix {} instFix rfl rfl rfl

/-- Claim C10: after a create in which guest-artifact preparation succeeds,
    shared_disk_path refers to <results_root>/<vm_id>/guest.tar.gz rather
    than the /tmp/shared-<vm_id>.ext4 image, so a later stop deletes the
    tarball and leaves the ext4 image on disk. -/
theorem C10_shared_path_redirected (w : World) (cfg : AppConfig)
    (s : SysState) (vm_id : String) (t : TaskData)
    (hv : validate_mcp_request t = true) (hd : w.diskOk = true)
    (ha : w.artifactsOk = true) (hsh : w.unlinkSharedOk = true)
    (hne1 : sharedDiskPath vm_id ≠ guestTarPath cfg vm_id)
    (hne2 : sharedDiskPath vm_id ≠ socketPath vm_id)
    (hne3 : sharedDiskPath vm_id ≠ vmConfigPath vm_id) :
    ∃ s2 inst, create_vm w cfg s vm_id (some t) = Except.ok (s2, inst) ∧
      inst.shared_disk_path = some (guestTarPath cfg vm_id) ∧
      sharedDiskPath vm_id ∈ s2.fs ∧
      guestTarPath cfg vm_id ∉ (stop_vm w cfg s2 inst).state.fs ∧
      sharedDiskPath vm_id ∈ (stop_vm w cfg s2 inst).state.fs := by
  simp only [create_vm, hv, hd, ha, Bool.not_true, Bool.and_false,
    Bool.not_false, if_false, if_true, ite_true, ite_false,
    Bool.false_eq_true, Bool.true_eq_false]
  refine ⟨_, _, rfl, rfl, ?_, ?_, ?_⟩
  · exact mem_fsAdd_of_mem _ (mem_fsAdd_of_mem _ (mem_fsAdd_self _ _))
  · rw [stop_vm_state_fs]
    exact shared_not_mem_cleanup hsh rfl
  · rw [stop_vm_state_fs]
    apply mem_cleanup_of_ne
    · exact mem_fsAdd_of_mem _ (mem_fsAdd_of_mem _ (mem_fsAdd_self _ _))
    · intro sp hsp
      injection hsp with hsp2
      rw [← hsp2]
      exact hne2
    · intro dp hdp
      injection hdp with hdp2
      rw [← hdp2]
      exact hne1
    · exact hne3

/-- Witness for the C10 theorem at a concrete VM. -/
theorem C10_shared_path_redirected_witness :
    ∃ s2 inst, create_vm wOk cfgFix {} "vm1" (some tdFix) = Except.ok (s2, inst) ∧
      inst.shared_disk_path = some (guestTarPath cfgFix "vm1") ∧
      sharedDiskPath "vm1" ∈ s2.fs ∧
      guestTarPath cfgFix "vm1" ∉ (stop_vm wOk cfgFix s2 inst).state.fs ∧
      sharedDiskPath "vm1" ∈ (stop_vm wOk cfgFix s2 inst).state.fs :=
  C10_shared_path_redirected wOk cfgFix {} "vm1" tdFix (by decide) rfl rfl rfl
    (by decide) (by decide) (by decide)

/-- Claim C6, counterexample: the Network Provisioner is constructed over a
    private CIDR, yet setup_tap_interface then accepts the well-formed but
    non-private CIDR 8.8.8.0/24: it returns an interface name and records
    the attachment, instead of rejecting the call — no privateness check is
    performed at attachment creation. -/
theorem C6_counterexample :
    networkManagerInit cfgFix = Except.ok [] ∧
    isPrivateNet (ipv4 8 8 8 0) 24 = false ∧
    setup_tap_interface wOk cfgFix [] "vmA"
        (some (CidrInput.wellFormed (ipv4 8 8 8 0) 24)) =
      Except.ok (some "tapvmA",
        [("vmA",
          { tap_name := "tapvmA",
            cidr := CidrInput.wellFormed (ipv4 8 8 8 0) 24,
            gateway_ip := ipv4 8 8 8 1,
            vm_ip := ipv4 8 8 8 2 })]) := by
  refine ⟨rfl, by decide, rfl⟩

/-- Claim C6 (amended): the private-network check runs only at Network
    Provisioner construction — a malformed or non-private configured CIDR
    makes construction raise; attachment creation rejects a CIDR whose
    address part is malformed (returning no interface and leaving the
    active set unchanged, while a malformed prefix length raises), but it
    parses the CIDR without any privateness check, so any well-formed CIDR
    — private or not — yields an interface and an active-set entry when
    the interface commands succeed. -/
theorem C6_private_check_only_at_construction (w : World) (cfg : AppConfig)
    (active : List (String × NetInfo)) (vm_id : String) (a p : Nat) :
    (cfg.networkCidr = CidrInput.wellFormed a p → isPrivateNet a p = false →
      networkManagerInit cfg = Except.error PyErr.valueError) ∧
    (cfg.networkCidr = CidrInput.addrMalformed →
      networkManagerInit cfg = Except.error PyErr.valueError) ∧
    (cfg.networkCidr = CidrInput.maskMalformed →
      networkManagerInit cfg = Except.error PyErr.netmaskValueError) ∧
    (setup_tap_interface w cfg active vm_id (some CidrInput.addrMalformed) =
      Except.ok (none, active)) ∧
    (setup_tap_interface w cfg active vm_id (some CidrInput.maskMalformed) =
      Except.error PyErr.netmaskValueError) ∧
    (w.netCmdsOk = true →
      setup_tap_interface w cfg active vm_id
          (some (CidrInput.wellFormed a p)) =
        Except.ok (some ("tap" ++ vm_id),
          updA vm_id
            { tap_name := "tap" ++ vm_id,
              cidr := CidrInput.wellFormed a p,
              gateway_ip := networkAddress a p + 1,
              vm_ip := networkAddress a p + 2 } active)) := by
  refine ⟨?_, ?_, ?_, rfl, rfl, ?_⟩
  · intro hc hpriv
    simp [networkManagerInit, validate_network_config, hc, hpriv, Except.map]
  · intro hc
    simp [networkManagerInit, validate_network_config, hc, Except.map]
  · intro hc
    simp [networkManagerInit, validate_network_config, hc, Except.map]
  · intro hcmd
    simp [setup_tap_interface, hcmd]

/-- Witness for the amended C6 theorem at the non-private network
    8.8.8.0/24 over a provisioner configured with an invalid (non-private)
    CIDR. -/
theorem C6_private_check_only_at_construction_witness :
    ((CidrInput.wellFormed (ipv4 8 8 8 0) 24 =
        CidrInput.wellFormed (ipv4 8 8 8 0) 24 →
      isPrivateNet (ipv4 8 8 8 0) 24 = false →
      networkManagerInit
          { cfgFix with networkCidr := CidrInput.wellFormed (ipv4 8 8 8 0) 24 } =
        Except.error PyErr.valueError)) ∧
    networkManagerInit
        { cfgFix with networkCidr := CidrInput.wellFormed (ipv4 8 8 8 0) 24 } =
      Except.error PyErr.valueError := by
  have h := C6_private_check_only_at_construction wOk
    { cfgFix with networkCidr := CidrInput.wellFormed (ipv4 8 8 8 0) 24 }
    [] "vmA" (ipv4 8 8 8 0) 24
  exact ⟨fun _ _ => h.1 rfl (by decide), h.1 rfl (by decide)⟩

end Firecracker
